import Mathlib

/-!
Shallow embedding of the video-to-verdict analysis pipeline of the
Gait-Analysis-For-Firearm-Detection repository.

Conventions of the embedding:
* Python floats are modelled as rationals (`ℚ`); the properties checked
  here are order/algebra facts about the formulas, not rounding facts.
* A decoded video is modelled as the list of its decodable frames; OpenCV
  per-frame statistics (saturation, hue, colorfulness, ...) are carried as
  fields of `FrameMetrics`, since they are produced by external library
  calls on the raw pixels.
* Fallible Python functions (raising) become `Except`-valued functions.
-/

/-- Per-frame HSV/colorfulness statistics computed by
`validate_thermal_video` in `backend/app/core/file_handler.py`
(lines 96-133) for a frame with at least 3 channels. -/
structure FrameMetrics where
  meanSaturation : ℚ
  hueStd : ℚ
  colorfulRatio : ℚ
  meanChannelSpread : ℚ
  meanDiff : ℚ
  colorfulness : ℚ
  uniqueSats : ℕ
  dominantHueBins : ℕ
  deriving DecidableEq, Repr

/-- A decodable frame as seen by the validator loop: either a
single-channel image (`frame.ndim == 2` or `shape[2] == 1`), which skips
all metric computation, or a multi-channel image together with the
statistics the loop derives from its pixels. -/
inductive Frame where
  | singleChannel : Frame
  | multiChannel : FrameMetrics → Frame
  deriving DecidableEq, Repr

/-- `is_false_color_thermal` flag, file_handler.py lines 136-141. -/
def is_false_color_thermal (m : FrameMetrics) : Bool :=
  decide (m.uniqueSats < 15)
    && decide (m.dominantHueBins ≤ 6)
    && decide ((2 : ℚ)/5 < m.meanSaturation)
    && decide (m.hueStd < (1 : ℚ)/4)

/-- `looks_thermal` flag, file_handler.py lines 149-155. -/
def looks_thermal (m : FrameMetrics) : Bool :=
  (decide (m.meanSaturation < (1 : ℚ)/5)
      && decide (m.colorfulness < (30 : ℚ))
      && decide (m.meanChannelSpread < (12 : ℚ)))
  || (decide (m.meanSaturation < (1 : ℚ)/4)
      && decide (m.colorfulness < (40 : ℚ))
      && decide (m.hueStd < (1 : ℚ)/10)
      && decide (m.meanDiff < (10 : ℚ)))
  || is_false_color_thermal m

/-- `clearly_rgb` flag, file_handler.py lines 159-167. -/
def clearly_rgb (m : FrameMetrics) : Bool :=
  !is_false_color_thermal m
  && decide (20 < m.uniqueSats)
  && ((decide ((1 : ℚ)/4 < m.meanSaturation) && decide ((40 : ℚ) < m.colorfulness))
      || (decide ((7 : ℚ)/20 < m.colorfulRatio) && decide ((20 : ℚ) < m.meanChannelSpread))
      || decide (8 < m.dominantHueBins))

/-- The mutable counters of the sampling loop of `validate_thermal_video`
(file_handler.py lines 61-69). -/
structure ValidationSummary where
  checked : ℕ
  nonThermal : ℕ
  thermalLike : ℕ
  uncertain : ℕ
  framesWithMetrics : ℕ
  sumColorfulness : ℚ
  sumSaturation : ℚ
  deriving DecidableEq, Repr

def initSummary : ValidationSummary :=
  { checked := 0, nonThermal := 0, thermalLike := 0, uncertain := 0
  , framesWithMetrics := 0, sumColorfulness := 0, sumSaturation := 0 }

/-- The frame-sampling loop of `validate_thermal_video` (file_handler.py
lines 72-201).  Frames at an index not divisible by the stride are
skipped; every sampled frame bumps `checked`; single-channel frames skip
classification entirely; a frame with metrics is classified exactly one
of thermal / rgb / uncertain; the loop stops early when a majority of
frames so far is rgb, or when `sample_frames` frames have been checked. -/
def runValidationLoop (step sampleFrames : ℕ) :
    List Frame → ℕ → ValidationSummary → ValidationSummary
  | [], _, s => s
  | f :: rest, frameIndex, s =>
    if frameIndex % step ≠ 0 then
      runValidationLoop step sampleFrames rest (frameIndex + 1) s
    else
      let s₁ := { s with checked := s.checked + 1 }
      match f with
      | Frame.singleChannel =>
        if sampleFrames ≤ s₁.checked then s₁
        else runValidationLoop step sampleFrames rest (frameIndex + 1) s₁
      | Frame.multiChannel m =>
        let s₂ := { s₁ with
          framesWithMetrics := s₁.framesWithMetrics + 1
          sumColorfulness := s₁.sumColorfulness + m.colorfulness
          sumSaturation := s₁.sumSaturation + m.meanSaturation }
        if looks_thermal m then
          let s₃ := { s₂ with thermalLike := s₂.thermalLike + 1 }
          if sampleFrames ≤ s₃.checked then s₃
          else runValidationLoop step sampleFrames rest (frameIndex + 1) s₃
        else if clearly_rgb m then
          let s₃ := { s₂ with nonThermal := s₂.nonThermal + 1 }
          if max 1 (s₃.checked / 2 + 1) ≤ s₃.nonThermal then s₃
          else if sampleFrames ≤ s₃.checked then s₃
          else runValidationLoop step sampleFrames rest (frameIndex + 1) s₃
        else
          let s₃ := { s₂ with uncertain := s₂.uncertain + 1 }
          if sampleFrames ≤ s₃.checked then s₃
          else runValidationLoop step sampleFrames rest (frameIndex + 1) s₃

/-- Sampling stride, file_handler.py line 59:
`step = max((frame_count // sample_frames) if frame_count > 0 else 1, 1)`.
`frameCount = 0` stands for an unknown frame count (metadata reports a
non-positive value). -/
def sampleStep (frameCount sampleFrames : ℕ) : ℕ :=
  if 0 < frameCount then max (frameCount / sampleFrames) 1 else 1

/-- Loop state after sampling stops, for a given video. -/
def validationSummary (frames : List Frame) (frameCount sampleFrames : ℕ) :
    ValidationSummary :=
  runValidationLoop (sampleStep frameCount sampleFrames) sampleFrames frames 0 initSummary

/-- `thermal_ratio = thermal_like / checked`, file_handler.py line 209. -/
def thermal_ratio (s : ValidationSummary) : ℚ := (s.thermalLike : ℚ) / (s.checked : ℚ)

/-- `rgb_ratio = non_thermal / checked`, file_handler.py line 210. -/
def rgb_ratio (s : ValidationSummary) : ℚ := (s.nonThermal : ℚ) / (s.checked : ℚ)

/-- `uncertain_ratio = uncertain / checked`, file_handler.py line 211. -/
def uncertain_ratio (s : ValidationSummary) : ℚ := (s.uncertain : ℚ) / (s.checked : ℚ)

/-- `avg_colorfulness`, file_handler.py line 213. -/
def avg_colorfulness (s : ValidationSummary) : ℚ :=
  if s.framesWithMetrics = 0 then 0 else s.sumColorfulness / (s.framesWithMetrics : ℚ)

/-- `avg_saturation`, file_handler.py line 214. -/
def avg_saturation (s : ValidationSummary) : ℚ :=
  if s.framesWithMetrics = 0 then 0 else s.sumSaturation / (s.framesWithMetrics : ℚ)

/-- The chain of rejection checks of `validate_thermal_video`
(file_handler.py lines 231-260): each check raises the same
`FileValidationError`, so the call rejects iff some check fires. -/
def rejectDecision (s : ValidationSummary) (strict : Bool) : Bool :=
  decide (thermal_ratio s = 0 ∧ 0 < s.checked)
  || decide ((3 : ℚ)/10 < rgb_ratio s ∧ (45 : ℚ) < avg_colorfulness s)
  || decide (((1 : ℚ)/2 < uncertain_ratio s) ∧ thermal_ratio s < (3 : ℚ)/10)
  || decide (((7 : ℚ)/20 < avg_saturation s) ∧ thermal_ratio s < (1 : ℚ)/2)
  || (strict && decide (((1 : ℚ)/5 < rgb_ratio s) ∧ thermal_ratio s < (2 : ℚ)/5))

/-- The two distinct `FileValidationError` outcomes of
`validate_thermal_video`: no readable frames (line 206) versus footage
rejected as non-thermal (lines 234-258). -/
inductive ValidationError where
  | noReadableFrames : ValidationError
  | nonThermalFootage : ValidationError
  deriving DecidableEq, Repr

/-- `validate_thermal_video`, file_handler.py lines 40-263: sample frames,
raise if none could be read, then apply the aggregate rejection rules.
On success the function returns (the model keeps the final counters as
the value, where the Python function only logs them). -/
def validate_thermal_video (frames : List Frame) (frameCount : ℕ)
    (strict : Bool) (sampleFrames : ℕ) : Except ValidationError ValidationSummary :=
  let s := validationSummary frames frameCount sampleFrames
  if s.checked = 0 then Except.error ValidationError.noReadableFrames
  else if rejectDecision s strict then Except.error ValidationError.nonThermalFootage
  else Except.ok s

/-! ### AnomalyScoringEngine (backend/ml/service.py, `analyze_video`) -/

/-- `combined_score = 0.5 * recon_error + 0.5 * latent_score`,
service.py line 164. -/
def combined_score (recon_error latent_score : ℚ) : ℚ :=
  (1 : ℚ)/2 * recon_error + (1 : ℚ)/2 * latent_score

/-- `threat_detected = combined_score >= self.threshold`,
service.py line 179. -/
def threat_detected (recon_error latent_score threshold : ℚ) : Bool :=
  decide (threshold ≤ combined_score recon_error latent_score)

/-- `distance_from_threshold = abs(combined_score - self.threshold)`,
service.py line 183. -/
def distance_from_threshold (c threshold : ℚ) : ℚ := |c - threshold|

/-- `confidence = min(0.5 + distance_from_threshold * 2.0, 0.99)`,
service.py line 184. -/
def confidence (c threshold : ℚ) : ℚ :=
  min ((1 : ℚ)/2 + distance_from_threshold c threshold * 2) ((99 : ℚ)/100)

/-! ### EnergyImageBuilder (backend/ml/processor.py, `gei_from_video`) -/

/-- Elementwise sum of two masks, the accumulation
`acc = mask if acc is None else (acc + mask)` of processor.py line 44. -/
def matAdd (a b : List (List ℚ)) : List (List ℚ) :=
  List.zipWith (List.zipWith (· + ·)) a b

/-- `(acc / n).clip(0.0, 1.0)`, processor.py line 52. -/
def matMeanClip (n : ℕ) (a : List (List ℚ)) : List (List ℚ) :=
  a.map (fun row => row.map (fun x => min (max (x / (n : ℚ)) 0) 1))

/-- `gei_from_video`, processor.py lines 26-52.  The per-frame pixel
pipeline (grayscale conversion, CLAHE, normalize / blur / adaptive
threshold / morphology, resize) is a chain of external OpenCV calls; it is
carried as the function `process` from a raw frame to its resized
silhouette mask.  With zero decodable frames the accumulator stays `None`
and the function raises `RuntimeError("No frames processed: ...")`;
otherwise it returns the clipped mean of the masks. -/
def gei_from_video {α : Type} (process : α → List (List ℚ)) (frames : List α) :
    Except String (List (List ℚ)) :=
  match frames.map process with
  | [] => Except.error "No frames processed"
  | m :: ms => Except.ok (matMeanClip (frames.length) (ms.foldl matAdd m))

/-! ### Job records and `update_analysis_status`
(backend/app/crud/video.py lines 303-336) -/

/-- The analysis-results payload as stored on a record: the Python dict,
modelled as an association list.  Python dict truthiness =
non-emptiness. -/
abbrev ResultsPayload := List (String × String)

/-- The fields of `VideoRecord` touched or read by the claims: the three
analysis fields plus a sample of the remaining columns (to state that they
are untouched). -/
structure VideoRecord where
  analysis_status : String
  analysis_results : Option ResultsPayload
  analyzed_by : Option ℕ
  filename : String
  original_filename : String
  file_path : String
  file_size : String
  uploaded_by : ℕ
  deriving DecidableEq, Repr

/-- `VideoAnalysisStatusUpdate` schema: a status string plus an optional
results payload (absent = `None`). -/
structure VideoAnalysisStatusUpdate where
  status : String
  analysis_results : Option ResultsPayload
  deriving DecidableEq, Repr

/-- Python truthiness of `status_update.analysis_results`: `None` and the
empty dict are falsy. -/
def payloadTruthy : Option ResultsPayload → Bool
  | none => false
  | some p => !p.isEmpty

/-- `update_analysis_status`, crud/video.py lines 303-336 (the found-record
path): always write `analysis_status`; write `analysis_results` only when
the supplied payload is truthy; write `analyzed_by` only when a user id is
supplied; touch nothing else. -/
def update_analysis_status (video : VideoRecord)
    (status_update : VideoAnalysisStatusUpdate) (analyzed_by : Option ℕ) :
    VideoRecord :=
  let v₁ := { video with analysis_status := status_update.status }
  let v₂ :=
    if payloadTruthy status_update.analysis_results then
      { v₁ with analysis_results := status_update.analysis_results }
    else v₁
  match analyzed_by with
  | some u => { v₂ with analyzed_by := some u }
  | none => v₂

/-! ### Upload flow (backend/app/api/videos.py, `upload_video`) -/

/-- Outcome of one `upload_video` request, as far as the claims are
concerned: the HTTP status of the response, whether a `VideoRecord` was
created, whether the background analysis task was scheduled, and whether
the saved files were deleted again. -/
structure UploadResult where
  httpStatus : ℕ
  recordCreated : Bool
  analysisScheduled : Bool
  filesDeleted : Bool
  deriving DecidableEq, Repr

/-- `upload_video`, videos.py lines 113-229.  External collaborators enter
as flags: `fileValid` is the outcome of `validate_video_file`,
`needsRepair`/`repaired` the outcome of `repair_if_needed`.  A
`FileValidationError` from `validate_video_file` hits the outer
`except FileValidationError` handler (HTTP 400, nothing saved yet).  A
repair failure or a thermal-validation rejection raises an
`HTTPException(400)` inside the outer `try`, which the outer generic
`except Exception` handler catches, deletes the saved files, and re-raises
as HTTP 500; in both cases no database record is created and no analysis
task is scheduled.  Only when every step passes is the record created and
`process_video_analysis_sync` scheduled. -/
def upload_video (fileValid needsRepair repaired : Bool)
    (frames : List Frame) (frameCount : ℕ) (strict : Bool) : UploadResult :=
  if !fileValid then
    { httpStatus := 400, recordCreated := false
    , analysisScheduled := false, filesDeleted := false }
  else if needsRepair && !repaired then
    { httpStatus := 500, recordCreated := false
    , analysisScheduled := false, filesDeleted := true }
  else
    match validate_thermal_video frames frameCount strict 12 with
    | Except.error _ =>
      { httpStatus := 500, recordCreated := false
      , analysisScheduled := false, filesDeleted := true }
    | Except.ok _ =>
      { httpStatus := 200, recordCreated := true
      , analysisScheduled := true, filesDeleted := false }

/-! ### Background analysis task and notification
(backend/app/api/videos.py `process_video_analysis_sync`,
backend/app/services/notifications.py `notify_threat_detected`) -/

/-- Delivery outcome of the external e-mail collaborator behind
`notify_threat_detected`: delivered, reported as undelivered
(`send_email` returned `False`), or an exception while sending. -/
inductive NotifyOutcome where
  | delivered : NotifyOutcome
  | notDelivered : NotifyOutcome
  | raised : NotifyOutcome
  deriving DecidableEq, Repr

/-- `notify_threat_detected`, notifications.py lines 11-61: returns the
`send_email` result, logging a warning when it could not be delivered; an
exception from the mailer propagates to the caller. -/
def notify_threat_detected : NotifyOutcome → Except String Bool
  | NotifyOutcome.delivered => Except.ok true
  | NotifyOutcome.notDelivered => Except.ok false
  | NotifyOutcome.raised => Except.error "notification send failed"

/-- Result of one ML analysis run (`analyze_video_sync`): the
`threat_detected` flag of the results dict plus the dict persisted on the
record. -/
structure MLOutcome where
  threat : Bool
  payload : ResultsPayload
  deriving DecidableEq, Repr

/-- The `try` body of `process_video_analysis_sync`, videos.py lines
51-88: set the record to `processing`; run the ML analysis (an exception
propagates to the outer handler); on success set the record to `completed`
with the results; if the results flag a threat, call
`notify_threat_detected` inside its own `try`/`except` that only logs a
failure. -/
def analysisTaskBody (video : VideoRecord)
    (analysis : Except String MLOutcome) (n : NotifyOutcome) :
    Except String VideoRecord :=
  let v₁ := update_analysis_status video
    { status := "processing", analysis_results := none } none
  match analysis with
  | Except.error e => Except.error e
  | Except.ok o =>
    let v₂ := update_analysis_status v₁
      { status := "completed", analysis_results := some o.payload } none
    if o.threat then
      match notify_threat_detected n with
      | Except.ok _ => Except.ok v₂
      | Except.error _ => Except.ok v₂
    else Except.ok v₂

/-- `process_video_analysis_sync`, videos.py lines 41-110: run the body;
on any exception the outer handler sets the record to `failed` with the
error captured in the results payload.  The function never re-raises. -/
def process_video_analysis_sync (video : VideoRecord)
    (analysis : Except String MLOutcome) (n : NotifyOutcome) : VideoRecord :=
  match analysisTaskBody video analysis n with
  | Except.ok v => v
  | Except.error e =>
    update_analysis_status
      (update_analysis_status video
        { status := "processing", analysis_results := none } none)
      { status := "failed", analysis_results := some [("error", e)] } none

/-! ### Trigger endpoint (backend/app/api/videos.py,
`trigger_video_processing`) -/

/-- Outcome of one `trigger_video_processing` request: HTTP status and
whether a new background analysis task was scheduled. -/
structure TriggerResult where
  httpStatus : ℕ
  taskScheduled : Bool
  deriving DecidableEq, Repr

/-- `trigger_video_processing`, videos.py lines 956-971 (the guard and
scheduling logic): invalid id → 400; unknown or inaccessible video → 404;
a video whose `analysis_status` is already `"processing"` → 409 conflict
with no task scheduled; otherwise schedule the background task. -/
def trigger_video_processing (validId : Bool) (video : Option VideoRecord) :
    TriggerResult :=
  if !validId then { httpStatus := 400, taskScheduled := false }
  else
    match video with
    | none => { httpStatus := 404, taskScheduled := false }
    | some v =>
      if v.analysis_status = "processing" then
        { httpStatus := 409, taskScheduled := false }
      else { httpStatus := 200, taskScheduled := true }

/-- Decidable equality for `Except` values, so concrete runs of the
fallible functions can be checked by `decide`. -/
def exceptDecEq {e a : Type} [DecidableEq e] [DecidableEq a] :
    DecidableEq (Except e a) := fun x y =>
  match x, y with
  | Except.ok u, Except.ok v =>
    if h : u = v then isTrue (by rw [h])
    else isFalse (by intro hh; cases hh; exact h rfl)
  | Except.error u, Except.error v =>
    if h : u = v then isTrue (by rw [h])
    else isFalse (by intro hh; cases hh; exact h rfl)
  | Except.ok _, Except.error _ => isFalse (by intro hh; cases hh)
  | Except.error _, Except.ok _ => isFalse (by intro hh; cases hh)

instance {e a : Type} [DecidableEq e] [DecidableEq a] :
    DecidableEq (Except e a) := exceptDecEq

/-! ### Concrete frames used as inputs below -/

/-- Metrics of an all-black (fully unsaturated) multi-channel frame: every
statistic is zero, so the frame is classified thermal. -/
def zeroMetrics : FrameMetrics :=
  { meanSaturation := 0, hueStd := 0, colorfulRatio := 0, meanChannelSpread := 0
  , meanDiff := 0, colorfulness := 0, uniqueSats := 0, dominantHueBins := 0 }

/-- Metrics of a saturated natural-color frame (varied saturation, high
colorfulness): classified rgb. -/
def rgbMetrics : FrameMetrics :=
  { meanSaturation := 1/2, hueStd := 1/2, colorfulRatio := 1/2
  , meanChannelSpread := 30, meanDiff := 20, colorfulness := 60
  , uniqueSats := 25, dominantHueBins := 10 }

/-! ### Helper lemmas about the sampling loop -/

/-- The loop never decreases the `checked` counter. -/
theorem runValidationLoop_checked_le (step sf : ℕ) (fs : List Frame) :
    ∀ (i : ℕ) (s : ValidationSummary),
      s.checked ≤ (runValidationLoop step sf fs i s).checked := by
  induction fs with
  | nil => intro i s; simp [runValidationLoop]
  | cons f rest ih =>
    intro i s
    cases f with
    | singleChannel =>
      simp only [runValidationLoop]
      split
      · exact ih _ _
      · split
        · simp
        · exact le_trans (by simp) (ih _ _)
    | multiChannel m =>
      simp only [runValidationLoop]
      split
      · exact ih _ _
      · split
        · split
          · simp
          · exact le_trans (by simp) (ih _ _)
        · split
          · split
            · simp
            · split
              · simp
              · exact le_trans (by simp) (ih _ _)
          · split
            · simp
            · exact le_trans (by simp) (ih _ _)

/-- A video with at least one decodable frame always samples at least one
frame (index 0 is always on-stride). -/
theorem validationSummary_checked_pos (f : Frame) (rest : List Frame)
    (fc sf : ℕ) : 0 < (validationSummary (f :: rest) fc sf).checked := by
  unfold validationSummary
  cases f with
  | singleChannel =>
    simp only [runValidationLoop]
    rw [if_neg (by simp : ¬(0 % sampleStep fc sf ≠ 0))]
    split
    · simp [initSummary]
    · exact lt_of_lt_of_le (by simp [initSummary])
        (runValidationLoop_checked_le _ _ _ _ _)
  | multiChannel m =>
    simp only [runValidationLoop]
    rw [if_neg (by simp : ¬(0 % sampleStep fc sf ≠ 0))]
    split
    · split
      · simp [initSummary]
      · exact lt_of_lt_of_le (by simp [initSummary])
          (runValidationLoop_checked_le _ _ _ _ _)
    · split
      · split
        · simp [initSummary]
        · split
          · simp [initSummary]
          · exact lt_of_lt_of_le (by simp [initSummary])
              (runValidationLoop_checked_le _ _ _ _ _)
      · split
        · simp [initSummary]
        · exact lt_of_lt_of_le (by simp [initSummary])
            (runValidationLoop_checked_le _ _ _ _ _)

/-- Once at least one frame was sampled, the rejection chain fires exactly
on the disjunction of the five documented conditions. -/
theorem rejectDecision_true_iff (s : ValidationSummary) (strict : Bool)
    (hc : 0 < s.checked) :
    rejectDecision s strict = true ↔
      (thermal_ratio s = 0
        ∨ ((3 : ℚ)/10 < rgb_ratio s ∧ (45 : ℚ) < avg_colorfulness s)
        ∨ ((1 : ℚ)/2 < uncertain_ratio s ∧ thermal_ratio s < (3 : ℚ)/10)
        ∨ ((7 : ℚ)/20 < avg_saturation s ∧ thermal_ratio s < (1 : ℚ)/2)
        ∨ (strict = true ∧ (1 : ℚ)/5 < rgb_ratio s ∧ thermal_ratio s < (2 : ℚ)/5)) := by
  simp [rejectDecision, hc, and_assoc, or_assoc]

/-- On a video with at least one sampled frame, `validate_thermal_video`
reduces to the aggregate decision on the final counters. -/
theorem validate_eq_of_ne_nil (frames : List Frame) (fc sf : ℕ)
    (strict : Bool) (h : frames ≠ []) :
    validate_thermal_video frames fc strict sf =
      (if rejectDecision (validationSummary frames fc sf) strict then
        Except.error ValidationError.nonThermalFootage
      else Except.ok (validationSummary frames fc sf)) := by
  obtain ⟨f, rest, rfl⟩ : ∃ g gs, frames = g :: gs := by
    cases frames with
    | nil => exact absurd rfl h
    | cons g gs => exact ⟨g, gs, rfl⟩
  have hc := validationSummary_checked_pos f rest fc sf
  unfold validate_thermal_video
  rw [if_neg (by omega)]

/-! ### Claims -/

/-- C1: the spec says an all-single-channel (grayscale) video is always
accepted with `thermal_ratio = 1`, and the code's own comment says
"Single-channel images are considered thermal".  The loop, however, counts
such frames in `checked` without ever incrementing `thermal_like`, so an
all-single-channel video ends with `thermal_ratio = 0` and the very first
rejection rule raises `FileValidationError`. -/
theorem single_channel_video_rejected :
    validate_thermal_video [Frame.singleChannel, Frame.singleChannel] 2 false 12 =
      Except.error ValidationError.nonThermalFootage
    ∧ thermal_ratio (validationSummary [Frame.singleChannel, Frame.singleChannel] 2 12) = 0 := by
  norm_num [validate_thermal_video, validationSummary, runValidationLoop,
    sampleStep, initSummary, rejectDecision, thermal_ratio, rgb_ratio,
    uncertain_ratio, avg_colorfulness, avg_saturation]

/-- C2: `threat_detected` is true exactly when the combined score reaches
the threshold (boundary inclusive), and the combined score is the
equal-weighted average of the reconstruction error and the latent
distance. -/
theorem threat_decision_iff (recon latent threshold : ℚ) :
    (threat_detected recon latent threshold = true ↔
      threshold ≤ combined_score recon latent)
    ∧ combined_score recon latent = (1 : ℚ)/2 * recon + (1 : ℚ)/2 * latent := by
  constructor
  · simp [threat_detected]
  · rfl

/-- C3: the reported confidence equals
`min(0.5 + 2 * |combined_score - threshold|, 0.99)`, always lies in
`[0.5, 0.99]`, is monotone non-decreasing in the distance from the
threshold, and equals exactly `0.5` on the decision boundary. -/
theorem confidence_spec (c t : ℚ) :
    confidence c t = min ((1 : ℚ)/2 + 2 * |c - t|) ((99 : ℚ)/100)
    ∧ (1 : ℚ)/2 ≤ confidence c t
    ∧ confidence c t ≤ (99 : ℚ)/100
    ∧ (c = t → confidence c t = (1 : ℚ)/2)
    ∧ ∀ c' t' : ℚ, |c - t| ≤ |c' - t'| → confidence c t ≤ confidence c' t' := by
  refine ⟨?_, ?_, ?_, ?_, ?_⟩
  · unfold confidence distance_from_threshold
    ring_nf
  · unfold confidence distance_from_threshold
    apply le_min
    · nlinarith [abs_nonneg (c - t)]
    · norm_num
  · unfold confidence
    exact min_le_right _ _
  · intro h
    subst h
    simp [confidence, distance_from_threshold]
    norm_num
  · intro c' t' h
    unfold confidence distance_from_threshold
    exact min_le_min (by nlinarith) le_rfl

/-- Witness for C3: on the boundary the confidence is exactly one half,
and moving the score away from the threshold does not decrease it. -/
theorem confidence_spec_witness :
    confidence 1 1 = (1 : ℚ)/2 ∧ confidence 1 1 ≤ confidence 2 1 :=
  ⟨(confidence_spec 1 1).2.2.2.1 rfl,
   (confidence_spec 1 1).2.2.2.2 2 1 (by norm_num)⟩

/-- C4: on a video with at least one sampled frame, the validator raises
its rejection error iff one of the five documented aggregate conditions
holds: zero thermal ratio; rgb ratio above 0.3 with mean colorfulness
above its cut (45); uncertain ratio above 0.5 with thermal ratio below
0.3; mean saturation above its cut (0.35) with thermal ratio below 0.5;
or, only when the strict flag is set, rgb ratio above 0.2 with thermal
ratio below 0.4. -/
theorem validator_rejects_iff (frames : List Frame) (fc sf : ℕ)
    (strict : Bool) (h : frames ≠ []) :
    validate_thermal_video frames fc strict sf =
        Except.error ValidationError.nonThermalFootage ↔
      (thermal_ratio (validationSummary frames fc sf) = 0
        ∨ ((3 : ℚ)/10 < rgb_ratio (validationSummary frames fc sf)
            ∧ (45 : ℚ) < avg_colorfulness (validationSummary frames fc sf))
        ∨ ((1 : ℚ)/2 < uncertain_ratio (validationSummary frames fc sf)
            ∧ thermal_ratio (validationSummary frames fc sf) < (3 : ℚ)/10)
        ∨ ((7 : ℚ)/20 < avg_saturation (validationSummary frames fc sf)
            ∧ thermal_ratio (validationSummary frames fc sf) < (1 : ℚ)/2)
        ∨ (strict = true
            ∧ (1 : ℚ)/5 < rgb_ratio (validationSummary frames fc sf)
            ∧ thermal_ratio (validationSummary frames fc sf) < (2 : ℚ)/5)) := by
  have hc : 0 < (validationSummary frames fc sf).checked := by
    obtain ⟨f, rest, rfl⟩ : ∃ g gs, frames = g :: gs := by
      cases frames with
      | nil => exact absurd rfl h
      | cons g gs => exact ⟨g, gs, rfl⟩
    exact validationSummary_checked_pos f rest fc sf
  rw [validate_eq_of_ne_nil frames fc sf strict h,
    ← rejectDecision_true_iff (validationSummary frames fc sf) strict hc]
  split
  · next hr => simp [hr]
  · next hr => simp [hr]

/-- Witness for C4, at a one-frame grayscale video: the rejection happens
and the corresponding disjunction (its first disjunct) holds. -/
theorem validator_rejects_iff_witness :
    validate_thermal_video [Frame.singleChannel] 1 false 12 =
        Except.error ValidationError.nonThermalFootage ↔
      (thermal_ratio (validationSummary [Frame.singleChannel] 1 12) = 0
        ∨ ((3 : ℚ)/10 < rgb_ratio (validationSummary [Frame.singleChannel] 1 12)
            ∧ (45 : ℚ) < avg_colorfulness (validationSummary [Frame.singleChannel] 1 12))
        ∨ ((1 : ℚ)/2 < uncertain_ratio (validationSummary [Frame.singleChannel] 1 12)
            ∧ thermal_ratio (validationSummary [Frame.singleChannel] 1 12) < (3 : ℚ)/10)
        ∨ ((7 : ℚ)/20 < avg_saturation (validationSummary [Frame.singleChannel] 1 12)
            ∧ thermal_ratio (validationSummary [Frame.singleChannel] 1 12) < (1 : ℚ)/2)
        ∨ (false = true
            ∧ (1 : ℚ)/5 < rgb_ratio (validationSummary [Frame.singleChannel] 1 12)
            ∧ thermal_ratio (validationSummary [Frame.singleChannel] 1 12) < (2 : ℚ)/5)) :=
  validator_rejects_iff [Frame.singleChannel] 1 12 false (by simp)

/-- C5: the spec invariant says the three ratios sum to 1 over all
successfully sampled frames.  On a video sampling one all-black
multi-channel (thermal) frame and one single-channel frame, validation
completes and returns, yet the ratios sum to 1/2: the single-channel frame
is counted in the denominator `checked` but in none of the three
categories. -/
theorem ratios_sum_breaks :
    validate_thermal_video [Frame.multiChannel zeroMetrics, Frame.singleChannel] 2 false 12 =
      Except.ok (validationSummary [Frame.multiChannel zeroMetrics, Frame.singleChannel] 2 12)
    ∧ thermal_ratio (validationSummary [Frame.multiChannel zeroMetrics, Frame.singleChannel] 2 12)
        + rgb_ratio (validationSummary [Frame.multiChannel zeroMetrics, Frame.singleChannel] 2 12)
        + uncertain_ratio (validationSummary [Frame.multiChannel zeroMetrics, Frame.singleChannel] 2 12)
        = 1/2 := by
  norm_num [validate_thermal_video, validationSummary, runValidationLoop,
    sampleStep, initSummary, rejectDecision, thermal_ratio, rgb_ratio,
    uncertain_ratio, avg_colorfulness, avg_saturation, looks_thermal,
    is_false_color_thermal, zeroMetrics]

/-- C6 counterexample: on a clearly-RGB one-frame video the validator
rejects (`rgb_ratio = 1`, `thermal_ratio = 0`), but contrary to the claim
no analysis job ever transitions to `failed`: the upload aborts before any
video record or job exists, so nothing is created and nothing is
scheduled. -/
theorem upload_reject_no_job :
    validate_thermal_video [Frame.multiChannel rgbMetrics] 1 false 12 =
      Except.error ValidationError.nonThermalFootage
    ∧ rgb_ratio (validationSummary [Frame.multiChannel rgbMetrics] 1 12) = 1
    ∧ thermal_ratio (validationSummary [Frame.multiChannel rgbMetrics] 1 12) = 0
    ∧ (upload_video true false false [Frame.multiChannel rgbMetrics] 1 false).recordCreated
        = false
    ∧ (upload_video true false false [Frame.multiChannel rgbMetrics] 1 false).analysisScheduled
        = false := by
  norm_num [validate_thermal_video, validationSummary, runValidationLoop,
    sampleStep, initSummary, rejectDecision, thermal_ratio, rgb_ratio,
    uncertain_ratio, avg_colorfulness, avg_saturation, looks_thermal,
    clearly_rgb, is_false_color_thermal, rgbMetrics, upload_video]

/-- C6 (amended): whenever the thermal validator rejects during upload,
the request is aborted with an HTTP error (the 400 rejection is re-raised
as 500 by the outer generic handler), the saved files are deleted, no
video record or analysis job is created, and no background analysis (no
energy image, no anomaly score) is ever scheduled. -/
theorem reject_aborts_upload (frames : List Frame) (fc : ℕ) (strict : Bool)
    (e : ValidationError)
    (h : validate_thermal_video frames fc strict 12 = Except.error e) :
    upload_video true false false frames fc strict =
      { httpStatus := 500, recordCreated := false
      , analysisScheduled := false, filesDeleted := true } := by
  simp [upload_video, h]

/-- Witness for the amended C6, at the clearly-RGB one-frame video. -/
theorem reject_aborts_upload_witness :
    upload_video true false false [Frame.multiChannel rgbMetrics] 1 false =
      { httpStatus := 500, recordCreated := false
      , analysisScheduled := false, filesDeleted := true } :=
  reject_aborts_upload [Frame.multiChannel rgbMetrics] 1 false
    ValidationError.nonThermalFootage
    (by norm_num [validate_thermal_video, validationSummary, runValidationLoop,
      sampleStep, initSummary, rejectDecision, thermal_ratio, rgb_ratio,
      uncertain_ratio, avg_colorfulness, avg_saturation, looks_thermal,
      clearly_rgb, is_false_color_thermal, rgbMetrics])

/-- C7: a video from which zero frames can be decoded makes the validator
raise its no-readable-frames error and the energy-image builder raise its
no-frames-processed error, whatever the configuration and the per-frame
processing pipeline; neither returns a default result. -/
theorem no_frames_errors :
    (∀ (fc sf : ℕ) (strict : Bool),
        validate_thermal_video [] fc strict sf =
          Except.error ValidationError.noReadableFrames)
    ∧ ∀ process : List (List ℚ) → List (List ℚ),
        gei_from_video process [] = Except.error "No frames processed" := by
  constructor
  · intro fc sf strict
    rfl
  · intro process
    rfl

/-- C8: once the ML analysis has succeeded with a detected threat, a
failing notification (an exception while sending, or a reported
non-delivery) leaves the job in `completed` with exactly the results
persisted at completion — the record equals the one of a successful
delivery — and the task body still returns normally, so the failure never
propagates to the caller. -/
theorem notify_failure_keeps_completed (v : VideoRecord) (o : MLOutcome)
    (n : NotifyOutcome) (hthreat : o.threat = true)
    (hfail : n ≠ NotifyOutcome.delivered) :
    (process_video_analysis_sync v (Except.ok o) n).analysis_status = "completed"
    ∧ process_video_analysis_sync v (Except.ok o) n =
        process_video_analysis_sync v (Except.ok o) NotifyOutcome.delivered
    ∧ analysisTaskBody v (Except.ok o) n =
        Except.ok (process_video_analysis_sync v (Except.ok o) n) := by
  cases n <;>
    simp_all [process_video_analysis_sync, analysisTaskBody,
      notify_threat_detected, update_analysis_status, payloadTruthy] <;>
    split <;> rfl

/-- Witness for C8: a concrete completed-with-threat job whose
notification raises keeps its `completed` status. -/
theorem notify_failure_keeps_completed_witness :
    (process_video_analysis_sync
        { analysis_status := "pending", analysis_results := none
        , analyzed_by := none, filename := "f", original_filename := "o"
        , file_path := "p", file_size := "1MB", uploaded_by := 7 }
        (Except.ok { threat := true, payload := [("threat_detected", "true")] })
        NotifyOutcome.raised).analysis_status = "completed" :=
  (notify_failure_keeps_completed _ _ NotifyOutcome.raised rfl (by simp)).1

/-- C9: triggering processing for a video whose `analysis_status` is
already `"processing"` is rejected with a 409 conflict and no second
background task is scheduled. -/
theorem processing_conflict_guard (v : VideoRecord)
    (h : v.analysis_status = "processing") :
    trigger_video_processing true (some v) =
      { httpStatus := 409, taskScheduled := false } := by
  simp [trigger_video_processing, h]

/-- Witness for C9, on a concrete record already in `processing`. -/
theorem processing_conflict_guard_witness :
    trigger_video_processing true
        (some { analysis_status := "processing", analysis_results := none
              , analyzed_by := none, filename := "f", original_filename := "o"
              , file_path := "p", file_size := "1MB", uploaded_by := 7 }) =
      { httpStatus := 409, taskScheduled := false } :=
  processing_conflict_guard _ rfl

/-- C10: `update_analysis_status` always writes the given status;
overwrites the stored results only when the supplied payload is non-empty
(a `None` or empty payload leaves the previous results untouched, also
when the status moves back to `"processing"`); writes `analyzed_by` only
when a user id is supplied; and leaves every other field of the record
unchanged. -/
theorem update_analysis_status_frame (v : VideoRecord)
    (su : VideoAnalysisStatusUpdate) (ab : Option ℕ) :
    (update_analysis_status v su ab).analysis_status = su.status
    ∧ (payloadTruthy su.analysis_results = true →
        (update_analysis_status v su ab).analysis_results = su.analysis_results)
    ∧ (payloadTruthy su.analysis_results = false →
        (update_analysis_status v su ab).analysis_results = v.analysis_results)
    ∧ (∀ u : ℕ, ab = some u →
        (update_analysis_status v su ab).analyzed_by = some u)
    ∧ (ab = none →
        (update_analysis_status v su ab).analyzed_by = v.analyzed_by)
    ∧ (update_analysis_status v su ab).filename = v.filename
    ∧ (update_analysis_status v su ab).original_filename = v.original_filename
    ∧ (update_analysis_status v su ab).file_path = v.file_path
    ∧ (update_analysis_status v su ab).file_size = v.file_size
    ∧ (update_analysis_status v su ab).uploaded_by = v.uploaded_by := by
  cases ab <;> by_cases hp : payloadTruthy su.analysis_results <;>
    simp_all [update_analysis_status]

/-- Witness for C10: a concrete update with a non-empty payload and a
user id overwrites the results and sets `analyzed_by`. -/
theorem update_analysis_status_frame_witness :
    (update_analysis_status
        { analysis_status := "processing"
        , analysis_results := some [("error", "old")]
        , analyzed_by := none, filename := "f", original_filename := "o"
        , file_path := "p", file_size := "1MB", uploaded_by := 7 }
        { status := "completed"
        , analysis_results := some [("combined_score", "0.7")] }
        (some 3)).analysis_results = some [("combined_score", "0.7")]
    ∧ (update_analysis_status
        { analysis_status := "processing"
        , analysis_results := some [("error", "old")]
        , analyzed_by := none, filename := "f", original_filename := "o"
        , file_path := "p", file_size := "1MB", uploaded_by := 7 }
        { status := "completed"
        , analysis_results := some [("combined_score", "0.7")] }
        (some 3)).analyzed_by = some 3 :=
  ⟨(update_analysis_status_frame _ _ _).2.1 rfl,
   (update_analysis_status_frame _ _ _).2.2.2.1 3 rfl⟩
